import Mathlib

/-!
Verification of the Farming Decision Engine of the Harvest Horizon app
(`src/app.py`): the climate-data fetcher with its cache and synthetic
fallback (`NASADataFetcher`), and the simulator's analysis, recommendation
and yield-scoring functions (`FarmingSimulator`).

Python numbers are modelled as rationals (`ℚ`); Python `round(x, p)`
(round-half-to-even) is modelled by `roundHalfEven`; a Python function that
can raise is modelled as returning `Except PyErr`; the Python `None` /
empty-dict distinction for `nasa_data` and for the analysis result is
modelled with `Option`.
-/

namespace Horizon

/-- Round-half-to-even on a rational, modelling Python's `round` to an
integer: the nearest integer, ties going to the even integer. -/
def roundHalfEven (q : ℚ) : ℤ :=
  if q - (⌊q⌋ : ℚ) < 1/2 then ⌊q⌋
  else if 1/2 < q - (⌊q⌋ : ℚ) then ⌊q⌋ + 1
  else if ⌊q⌋ % 2 = 0 then ⌊q⌋ else ⌊q⌋ + 1

/-- Python's `round(q, p)`: round to `p` decimal places. -/
def roundTo (p : ℕ) (q : ℚ) : ℚ :=
  (roundHalfEven (q * 10 ^ p) : ℚ) / 10 ^ p

/-- One parameter series of the NASA POWER payload: a date-keyed mapping
(Python dict, insertion-ordered oldest-to-newest), modelled as a list of
(day-number, value) pairs. -/
abbrev Series := List (ℤ × ℚ)

/-- `dict.values()` of a series: the values in date order. -/
def seriesValues (s : Series) : List ℚ := s.map Prod.snd

/-- `dict.keys()` of a series: the dates in order. -/
def seriesDates (s : Series) : List ℤ := s.map Prod.fst

/-- The `properties.parameter` block of a NASA POWER response: the four
daily series requested by `NASADataFetcher` (`src/app.py:167`). -/
structure NasaData where
  T2M : Series
  PRECTOTCORR : Series
  GWETROOT : Series
  ALLSKY_SFC_SW_DWN : Series
deriving DecidableEq

/-- Python exceptions that the modelled code can raise. -/
inductive PyErr where
  | zeroDivisionError
  | keyError
deriving DecidableEq

/-- The dict returned by `FarmingSimulator.analyze_conditions`
(`src/app.py:226-233`) when data is present. -/
structure Analysis where
  avg_temperature : ℚ
  avg_precipitation : ℚ
  avg_soil_moisture : ℚ
  temp_data : List ℚ
  precip_data : List ℚ
  soil_data : List ℚ
deriving DecidableEq

/-- `FarmingSimulator.analyze_conditions` (`src/app.py:217-233`).
`nd = none` models `self.nasa_data` being falsy (`None`), for which the
code returns the empty dict (modelled `Except.ok none`); a zero-length
series makes `sum(xs) / len(xs)` raise `ZeroDivisionError`. -/
def analyze_conditions (nd : Option NasaData) : Except PyErr (Option Analysis) :=
  match nd with
  | none => .ok none
  | some d =>
    let temps := seriesValues d.T2M
    let precip := seriesValues d.PRECTOTCORR
    let soil := seriesValues d.GWETROOT
    if temps.length = 0 then .error .zeroDivisionError
    else if precip.length = 0 then .error .zeroDivisionError
    else if soil.length = 0 then .error .zeroDivisionError
    else .ok (some
      { avg_temperature := roundTo 1 (temps.sum / temps.length)
        avg_precipitation := roundTo 2 (precip.sum / precip.length)
        avg_soil_moisture := roundTo 2 (soil.sum / soil.length)
        temp_data := temps.take 10
        precip_data := precip.take 10
        soil_data := soil.take 10 })

/-- The three soil-moisture regimes of the irrigation branch of
`FarmingSimulator.calculate_yield` (`src/app.py:262-274`). -/
inductive Regime where
  | dry
  | normal
  | wet
deriving DecidableEq

/-- Which branch of the `if soil < 0.3 / elif soil > 0.5 / else` chain of
`calculate_yield` (`src/app.py:262-274`) is taken. -/
def soilRegime (soil : ℚ) : Regime :=
  if soil < 3/10 then .dry
  else if soil > 1/2 then .wet
  else .normal

/-- The irrigation contribution to `base_yield` in `calculate_yield`
(`src/app.py:262-274`), factored through `soilRegime`. -/
def irrigationTerm (soil optIrr irrigation : ℚ) : ℚ :=
  match soilRegime soil with
  | .dry => if irrigation ≥ 50 then 15 else -30
  | .wet => if irrigation ≤ 30 then 20 else -25
  | .normal => max 0 (20 - |irrigation - optIrr| / 2)

/-- The fertilizer contribution to `base_yield` in `calculate_yield`
(`src/app.py:277-285`). -/
def fertilizerTerm (optFert fertilizer : ℚ) : ℚ :=
  let fert_diff := |fertilizer - optFert|
  if fert_diff ≤ 10 then 25
  else if fert_diff ≤ 20 then 10
  else if fertilizer > 80 then -15
  else if fertilizer < 20 then -20
  else 0

/-- `yield_pct = max(0, min(150, base_yield))` with
`base_yield = 100 + irrigation term + fertilizer term`
(`src/app.py:256-287`). -/
def yieldScore (soil optIrr optFert irrigation fertilizer : ℚ) : ℚ :=
  max 0 (min 150 (100 + irrigationTerm soil optIrr irrigation
    + fertilizerTerm optFert fertilizer))

/-- The result dict of `calculate_yield` (`src/app.py:293-298`); the
`feedback` entry is a presentation-only string built by
`_generate_feedback` and is not modelled. -/
structure YieldResult where
  yield_pct : ℚ
  water_usage : ℚ
  fert_cost : ℚ
deriving DecidableEq

/-- `FarmingSimulator.calculate_yield` (`src/app.py:254-298`). It first
calls `analyze_conditions`; if that returned the empty dict (no data
loaded), the subscript `analysis['avg_soil_moisture']` raises `KeyError`. -/
def calculate_yield (nd : Option NasaData) (optIrr optFert irrigation fertilizer : ℚ) :
    Except PyErr YieldResult :=
  match analyze_conditions nd with
  | .error e => .error e
  | .ok none => .error .keyError
  | .ok (some a) =>
    .ok { yield_pct := yieldScore a.avg_soil_moisture optIrr optFert irrigation fertilizer
          water_usage := irrigation * 10
          fert_cost := fertilizer * 5 }

/-- The advisory strings of `generate_recommendations` (`src/app.py:241-250`). -/
def msgLowMoisture : String := "⚠️ Low soil moisture detected - consider increasing irrigation"

/-- Low-rainfall advisory (`src/app.py:244`). -/
def msgLowRain : String := "☀️ Low rainfall period - crops may need supplemental water"

/-- Heat advisory (`src/app.py:246`). -/
def msgHighTemp : String := "🌡️ High temperatures - increase irrigation to compensate"

/-- Overwatering-risk advisory (`src/app.py:248`). -/
def msgOverwater : String := "💧 High moisture levels - reduce irrigation to prevent overwatering"

/-- "Conditions optimal" message (`src/app.py:250`). -/
def msgOptimal : String := "✅ Conditions are optimal for current crop"

/-- The rule body of `FarmingSimulator.generate_recommendations`
(`src/app.py:235-252`): four independent appends followed by the
`if not recs` default. -/
def recommendations_core (soil precip temp : ℚ) : List String :=
  let recs : List String := []
  let recs := if soil < 3/10 then recs ++ [msgLowMoisture] else recs
  let recs := if precip < 2 then recs ++ [msgLowRain] else recs
  let recs := if temp > 30 then recs ++ [msgHighTemp] else recs
  let recs := if soil > 1/2 ∧ precip > 5 then recs ++ [msgOverwater] else recs
  if recs = [] then [msgOptimal] else recs

/-- `FarmingSimulator.generate_recommendations` (`src/app.py:235-252`): it
subscripts its `analysis` argument, so the empty dict (no data loaded)
raises `KeyError`. -/
def generate_recommendations (analysis : Option Analysis) : Except PyErr (List String) :=
  match analysis with
  | none => .error .keyError
  | some a => .ok (recommendations_core a.avg_soil_moisture a.avg_precipitation a.avg_temperature)

/-- `NASADataFetcher._get_sample_data` (`src/app.py:189-204`): the synthetic
fallback. `pd.date_range(end=now, periods=days)` gives `days` consecutive
dates ending today (modelled by day numbers `today - (days-1) + i`); each
`np.random.random()` draw is modelled by an oracle stream in `[0,1)`, one
per parameter (`rT i` etc. is the draw used for day `i` of that series). -/
def get_sample_data (days : ℕ) (today : ℤ) (rT rP rS rR : ℕ → ℚ) : NasaData :=
  { T2M := (List.range days).map fun (i : ℕ) =>
      (today - ((days : ℤ) - 1) + (i : ℤ), 20 + ((i % 10 : ℕ) : ℚ) + rT i * 3)
    PRECTOTCORR := (List.range days).map fun (i : ℕ) =>
      (today - ((days : ℤ) - 1) + (i : ℤ), 5/2 + ((i % 5 : ℕ) : ℚ) + rP i)
    GWETROOT := (List.range days).map fun (i : ℕ) =>
      (today - ((days : ℤ) - 1) + (i : ℤ), 3/10 + ((i % 3 : ℕ) : ℚ) * (1/10) + rS i * (1/10))
    ALLSKY_SFC_SW_DWN := (List.range days).map fun (i : ℕ) =>
      (today - ((days : ℤ) - 1) + (i : ℤ), 11/2 + rR i) }

/-- The cache key `f"{lat}_{lon}_{days}"` of `get_climate_data`
(`src/app.py:176`), modelled as the triple it is built from. -/
abbrev CacheKey := ℚ × ℚ × ℕ

/-- The `self.cache` dict of `NASADataFetcher` (`src/app.py:160`),
modelled as an association list (latest insertion first). -/
structure NASADataFetcher where
  cache : List (CacheKey × NasaData)
deriving DecidableEq

/-- Dict lookup in the fetcher's cache. -/
def cacheLookup (c : List (CacheKey × NasaData)) (k : CacheKey) : Option NasaData :=
  match c with
  | [] => none
  | (k', d) :: t => if k' = k then some d else cacheLookup t k

/-- What one `get_climate_data` call produced: the returned data, the
fetcher's cache state afterwards, and whether a network request was
issued (`requests.get`, `src/app.py:181`). -/
structure FetchOutcome where
  result : NasaData
  fetcher : NASADataFetcher
  networkAttempted : Bool
deriving DecidableEq

/-- `NASADataFetcher.get_climate_data` (`src/app.py:162-187`): return the
cached entry on a hit; otherwise issue the network request. `live = some d`
models the request succeeding with payload `d` (which is then cached);
`live = none` models any exception, routed to `_get_sample_data` without
touching the cache. -/
def get_climate_data (f : NASADataFetcher) (lat lon : ℚ) (days : ℕ) (today : ℤ)
    (live : Option NasaData) (rT rP rS rR : ℕ → ℚ) : FetchOutcome :=
  let k : CacheKey := (lat, lon, days)
  match cacheLookup f.cache k with
  | some d => ⟨d, f, false⟩
  | none =>
    match live with
    | some d => ⟨d, ⟨(k, d) :: f.cache⟩, true⟩
    | none => ⟨get_sample_data days today rT rP rS rR, f, true⟩

/-- Minimum of a list of rationals (0 for the empty list). -/
def listMin : List ℚ → ℚ
  | [] => 0
  | [x] => x
  | x :: y :: t => min x (listMin (y :: t))

/-- Maximum of a list of rationals (0 for the empty list). -/
def listMax : List ℚ → ℚ
  | [] => 0
  | [x] => x
  | x :: y :: t => max x (listMax (y :: t))

/-- Restatement of the scoring algorithm in the spec's words, for the
refinement comparison with `yieldScore`: start at 100, add the
moisture-regime irrigation term, add the fertilizer-deviation term, then
clamp to [0, 150]. -/
def yieldSpecWording (soil optIrr optFert irrigation fertilizer : ℚ) : ℚ :=
  let irrTerm :=
    if soil < 3/10 then (if irrigation ≥ 50 then 15 else -30)
    else if soil > 1/2 then (if irrigation ≤ 30 then 20 else -25)
    else max 0 (20 - |irrigation - optIrr| / 2)
  let deviation := |fertilizer - optFert|
  let fertTerm :=
    if deviation ≤ 10 then 25
    else if deviation ≤ 20 then 10
    else if fertilizer > 80 then -15
    else if fertilizer < 20 then -20
    else 0
  max 0 (min 150 (100 + irrTerm + fertTerm))

/-- Restatement of the recommendation rules in the spec's words, for the
refinement comparison with `recommendations_core`: the four rules are
checked independently, every matching rule emits its warning, in the fixed
priority order, and if none fired a single optimal-conditions message is
emitted. -/
def recsSpecWording (soil precip temp : ℚ) : List String :=
  let fired :=
    (if soil < 3/10 then [msgLowMoisture] else [])
    ++ (if precip < 2 then [msgLowRain] else [])
    ++ (if temp > 30 then [msgHighTemp] else [])
    ++ (if soil > 1/2 ∧ precip > 5 then [msgOverwater] else [])
  if fired = [] then [msgOptimal] else fired

/-- A one-day observation set with average soil moisture 0.35, realising
the spec's worked example (normal moisture regime). -/
def exampleData35 : NasaData :=
  ⟨[(0, 20)], [(0, 3)], [(0, 7/20)], [(0, 6)]⟩

/-- An observation set whose four series are all empty. -/
def emptyData : NasaData := ⟨[], [], [], []⟩

/-- The most recent 10 values of a series, oldest-first, as the spec
describes the charting view. -/
def recentValues (l : List ℚ) : List ℚ := l.drop (l.length - 10)

/-- An 11-day observation set whose temperature values are 0,1,…,10
(oldest to newest). -/
def elevenDayData : NasaData :=
  ⟨[(0, 0), (1, 1), (2, 2), (3, 3), (4, 4), (5, 5), (6, 6), (7, 7), (8, 8), (9, 9), (10, 10)],
   [(0, 1)], [(0, 1)], [(0, 1)]⟩

/-- The shape the spec ascribes to one fallback series: exactly `days`
entries whose dates are consecutive and end today, and whose day-`i` value
lies in the half-open band `[lo i, lo i + w)`. -/
def seriesShapeOk (days : ℕ) (today : ℤ) (lo : ℕ → ℚ) (w : ℚ) (s : Series) : Prop :=
  (seriesDates s).length = days ∧
  (∀ i, i < days → (seriesDates s)[i]? = some (today - ((days : ℤ) - 1) + i)) ∧
  (∀ i v, (seriesValues s)[i]? = some v → lo i ≤ v ∧ v < lo i + w)

/-- A two-day observation set whose temperature is constantly 20.04, so
that the average rounded to one decimal (20.0) falls below the series
minimum. -/
def roundingData : NasaData :=
  ⟨[(0, 501/25), (1, 501/25)], [(0, 3), (1, 3)], [(0, 2/5), (1, 2/5)], [(0, 6), (1, 6)]⟩

/-- Evaluation of `analyze_conditions` on the worked example's data: the
average soil moisture is 0.35 (normal regime). -/
theorem analyze_exampleData35 :
    analyze_conditions (some exampleData35)
      = .ok (some ⟨20, 3, 7/20, [20], [3], [7/20]⟩) := by
  norm_num [analyze_conditions, exampleData35, seriesValues, roundTo, roundHalfEven]

/-- C1: for decisions in [0,100], `calculate_yield`'s score is exactly the
spec's formula (start at 100, add the moisture-regime irrigation term, add
the fertilizer-deviation term, clamp to [0,150]); and on the worked example
(optimal = (45,50), avg soil moisture 0.35, decision (45,50)) it returns
yield 145, water usage 450, fertilizer cost 250. -/
theorem score_matches_spec_formula (soil optIrr optFert irrigation fertilizer : ℚ)
    (h1 : 0 ≤ irrigation) (h2 : irrigation ≤ 100)
    (h3 : 0 ≤ fertilizer) (h4 : fertilizer ≤ 100) :
    yieldScore soil optIrr optFert irrigation fertilizer
      = yieldSpecWording soil optIrr optFert irrigation fertilizer ∧
    calculate_yield (some exampleData35) 45 50 45 50
      = .ok ⟨145, 450, 250⟩ := by
  constructor
  · unfold yieldScore yieldSpecWording irrigationTerm fertilizerTerm soilRegime
    split_ifs <;> rfl
  · simp only [calculate_yield, analyze_exampleData35]
    norm_num [yieldScore, irrigationTerm, fertilizerTerm, soilRegime]

/-- Witness for `score_matches_spec_formula` at irrigation 45,
fertilizer 50, soil 0.35, optimal (45, 50). -/
theorem score_matches_spec_formula_witness :
    yieldScore (7/20) 45 50 45 50 = yieldSpecWording (7/20) 45 50 45 50 ∧
    calculate_yield (some exampleData35) 45 50 45 50 = .ok ⟨145, 450, 250⟩ :=
  score_matches_spec_formula (7/20) 45 50 45 50 (by norm_num) (by norm_num)
    (by norm_num) (by norm_num)

/-- C2: for any decisions in [0,100] and any average soil moisture in
[0,1], the computed yield percentage lies in [0, 150]. -/
theorem yield_in_clamp_range (soil optIrr optFert irrigation fertilizer : ℚ)
    (h1 : 0 ≤ irrigation) (h2 : irrigation ≤ 100)
    (h3 : 0 ≤ fertilizer) (h4 : fertilizer ≤ 100)
    (h5 : 0 ≤ soil) (h6 : soil ≤ 1) :
    0 ≤ yieldScore soil optIrr optFert irrigation fertilizer ∧
    yieldScore soil optIrr optFert irrigation fertilizer ≤ 150 := by
  refine ⟨le_max_left 0 _, max_le (by norm_num) (min_le_left _ _)⟩

/-- Witness for `yield_in_clamp_range` at the spec's adversarial boundary
input: irrigation 0, fertilizer 100, soil moisture 0.9. -/
theorem yield_in_clamp_range_witness :
    0 ≤ yieldScore (9/10) 45 50 0 100 ∧ yieldScore (9/10) 45 50 0 100 ≤ 150 :=
  yield_in_clamp_range (9/10) 45 50 0 100 (by norm_num) (by norm_num)
    (by norm_num) (by norm_num) (by norm_num) (by norm_num)

/-- C4: soil moisture exactly 0.30 and exactly 0.50 fall in the normal
regime; the dry branch is taken iff moisture < 0.30 strictly and the wet
branch iff moisture > 0.50 strictly; at both boundary values the
irrigation term is the normal-regime linear-decay formula. -/
theorem moisture_regime_boundaries :
    soilRegime (3/10) = .normal ∧ soilRegime (1/2) = .normal ∧
    (∀ soil, soilRegime soil = .dry ↔ soil < 3/10) ∧
    (∀ soil, soilRegime soil = .wet ↔ soil > 1/2) ∧
    (∀ optIrr irrigation,
      irrigationTerm (3/10) optIrr irrigation = max 0 (20 - |irrigation - optIrr| / 2) ∧
      irrigationTerm (1/2) optIrr irrigation = max 0 (20 - |irrigation - optIrr| / 2)) := by
  refine ⟨by norm_num [soilRegime], by norm_num [soilRegime], fun soil => ?_, fun soil => ?_,
    fun optIrr irrigation => ⟨by norm_num [irrigationTerm, soilRegime],
      by norm_num [irrigationTerm, soilRegime]⟩⟩
  · unfold soilRegime
    split_ifs with hd hw <;> simp_all
  · unfold soilRegime
    split_ifs with hd hw <;> simp_all
    linarith

/-- C10: with no observation data loaded, `analyze_conditions` returns the
empty dict rather than raising, and both `calculate_yield` and
`generate_recommendations` then fail with `KeyError` when they subscript
the missing average fields. -/
theorem no_data_key_errors :
    analyze_conditions none = .ok none ∧
    (∀ optIrr optFert irrigation fertilizer : ℚ,
      calculate_yield none optIrr optFert irrigation fertilizer = .error .keyError) ∧
    generate_recommendations none = .error .keyError :=
  ⟨rfl, fun _ _ _ _ => rfl, rfl⟩

/-- C3 counterexample: `analyze_conditions` does not fail fast with a
distinct no-data condition — with absent data it returns the empty dict (a
degenerate result), and with zero-length series it raises
`ZeroDivisionError` (it divides by zero rather than preventing it). -/
theorem analyze_no_empty_data_guard :
    analyze_conditions none = .ok none ∧
    analyze_conditions (some emptyData) = .error .zeroDivisionError :=
  ⟨rfl, rfl⟩

/-- C3 (amended): with absent observation data `analyze_conditions`
returns the empty dict, and with a zero-length temperature series the
division by zero raises `ZeroDivisionError`; no NaN statistics are ever
produced, but there is no distinct EmptyDataError-like condition. -/
theorem analyze_empty_behavior (d : NasaData) (h : seriesValues d.T2M = []) :
    analyze_conditions none = .ok none ∧
    analyze_conditions (some d) = .error .zeroDivisionError := by
  refine ⟨rfl, ?_⟩
  simp [analyze_conditions, h]

/-- Witness for `analyze_empty_behavior` at the all-empty observation set. -/
theorem analyze_empty_behavior_witness :
    analyze_conditions none = .ok none ∧
    analyze_conditions (some emptyData) = .error .zeroDivisionError :=
  analyze_empty_behavior emptyData rfl

/-- C5: for every summary, `generate_recommendations` returns exactly the
independent-rules list of the spec (all matching rules fire, in the fixed
priority order, with the single optimal-conditions message when none
fires), and that list is never empty. -/
theorem recommendations_match_rules (a : Analysis) :
    generate_recommendations (some a)
      = .ok (recsSpecWording a.avg_soil_moisture a.avg_precipitation a.avg_temperature) ∧
    recsSpecWording a.avg_soil_moisture a.avg_precipitation a.avg_temperature ≠ [] := by
  obtain ⟨t, p, s, td, pd, sd⟩ := a
  by_cases h1 : s < 3/10 <;> by_cases h2 : p < 2 <;> by_cases h3 : t > 30 <;>
    by_cases h4 : (2:ℚ)⁻¹ < s <;> by_cases h5 : p > 5 <;>
      simp [generate_recommendations, recommendations_core, recsSpecWording,
        h1, h2, h3, h4, h5]

/-- C6 counterexample: on an 11-day window with temperatures 0,…,10
(oldest to newest), the charting view `temp_data` is the OLDEST ten values
0,…,9 — not the most recent ten values 1,…,10 that the claim describes. -/
theorem recent_view_takes_oldest :
    analyze_conditions (some elevenDayData)
      = .ok (some ⟨5, 1, 1, [0, 1, 2, 3, 4, 5, 6, 7, 8, 9], [1], [1]⟩) ∧
    ([0, 1, 2, 3, 4, 5, 6, 7, 8, 9] : List ℚ)
      ≠ recentValues (seriesValues elevenDayData.T2M) := by
  constructor
  · norm_num [analyze_conditions, elevenDayData, seriesValues, roundTo, roundHalfEven]
  · simp [recentValues, elevenDayData, seriesValues]

/-- C6 (amended): the `temp_data` and `precip_data` views produced by
`analyze_conditions` are the FIRST (oldest) up-to-10 daily values of the
corresponding series, presented oldest-first: each view has length
`min 10 n` and agrees with the series on every position it contains. -/
theorem recent_view_is_first_ten (d : NasaData) (a : Analysis)
    (h : analyze_conditions (some d) = .ok (some a)) :
    a.temp_data.length = min 10 (seriesValues d.T2M).length ∧
    (∀ i, i < a.temp_data.length → a.temp_data[i]? = (seriesValues d.T2M)[i]?) ∧
    a.precip_data.length = min 10 (seriesValues d.PRECTOTCORR).length ∧
    (∀ i, i < a.precip_data.length →
      a.precip_data[i]? = (seriesValues d.PRECTOTCORR)[i]?) := by
  simp only [analyze_conditions] at h
  split_ifs at h
  rw [Except.ok.injEq, Option.some.injEq] at h
  subst h
  refine ⟨List.length_take .., fun i hi => ?_, List.length_take .., fun i hi => ?_⟩
  · exact List.getElem?_take_of_lt (lt_of_lt_of_le hi (by simp [List.length_take]))
  · exact List.getElem?_take_of_lt (lt_of_lt_of_le hi (by simp [List.length_take]))

/-- Witness for `recent_view_is_first_ten` at the worked-example data. -/
theorem recent_view_is_first_ten_witness :
    (⟨20, 3, 7/20, [20], [3], [7/20]⟩ : Analysis).temp_data.length
        = min 10 (seriesValues exampleData35.T2M).length ∧
    (∀ i, i < (⟨20, 3, 7/20, [20], [3], [7/20]⟩ : Analysis).temp_data.length →
      (⟨20, 3, 7/20, [20], [3], [7/20]⟩ : Analysis).temp_data[i]?
        = (seriesValues exampleData35.T2M)[i]?) ∧
    (⟨20, 3, 7/20, [20], [3], [7/20]⟩ : Analysis).precip_data.length
        = min 10 (seriesValues exampleData35.PRECTOTCORR).length ∧
    (∀ i, i < (⟨20, 3, 7/20, [20], [3], [7/20]⟩ : Analysis).precip_data.length →
      (⟨20, 3, 7/20, [20], [3], [7/20]⟩ : Analysis).precip_data[i]?
        = (seriesValues exampleData35.PRECTOTCORR)[i]?) :=
  recent_view_is_first_ten exampleData35 ⟨20, 3, 7/20, [20], [3], [7/20]⟩
    analyze_exampleData35

/-- C7: after a live fetch succeeds on a cache miss, a second call with the
same `(lat, lon, days)` key returns the identical cached payload without
issuing a network request; a fallback result leaves the cache untouched,
so a later call for that key issues a network request again. -/
theorem cache_policy (f : NASADataFetcher) (lat lon : ℚ) (days : ℕ)
    (today today' : ℤ) (d : NasaData) (live' : Option NasaData)
    (rT rP rS rR rT' rP' rS' rR' : ℕ → ℚ)
    (hmiss : cacheLookup f.cache (lat, lon, days) = none) :
    ((get_climate_data f lat lon days today (some d) rT rP rS rR).result = d ∧
     (get_climate_data f lat lon days today (some d) rT rP rS rR).networkAttempted = true ∧
     get_climate_data (get_climate_data f lat lon days today (some d) rT rP rS rR).fetcher
         lat lon days today' live' rT' rP' rS' rR'
       = ⟨d, (get_climate_data f lat lon days today (some d) rT rP rS rR).fetcher, false⟩) ∧
    ((get_climate_data f lat lon days today none rT rP rS rR).fetcher = f ∧
     (get_climate_data f lat lon days today none rT rP rS rR).networkAttempted = true ∧
     (get_climate_data (get_climate_data f lat lon days today none rT rP rS rR).fetcher
         lat lon days today' live' rT' rP' rS' rR').networkAttempted = true) := by
  cases live' <;> simp [get_climate_data, cacheLookup, hmiss]

/-- Witness for `cache_policy`: empty cache, key (1, 2, 30). -/
theorem cache_policy_witness :
    ((get_climate_data ⟨[]⟩ 1 2 30 0 (some emptyData) 0 0 0 0).result = emptyData ∧
     (get_climate_data ⟨[]⟩ 1 2 30 0 (some emptyData) 0 0 0 0).networkAttempted = true ∧
     get_climate_data (get_climate_data ⟨[]⟩ 1 2 30 0 (some emptyData) 0 0 0 0).fetcher
         1 2 30 0 none 0 0 0 0
       = ⟨emptyData, (get_climate_data ⟨[]⟩ 1 2 30 0 (some emptyData) 0 0 0 0).fetcher,
          false⟩) ∧
    ((get_climate_data ⟨[]⟩ 1 2 30 0 none 0 0 0 0).fetcher = ⟨[]⟩ ∧
     (get_climate_data ⟨[]⟩ 1 2 30 0 none 0 0 0 0).networkAttempted = true ∧
     (get_climate_data (get_climate_data ⟨[]⟩ 1 2 30 0 none 0 0 0 0).fetcher
         1 2 30 0 none 0 0 0 0).networkAttempted = true) :=
  cache_policy ⟨[]⟩ 1 2 30 0 0 emptyData none 0 0 0 0 0 0 0 0 rfl

/-- The series built by `get_sample_data` have the shape the spec
describes, provided each day's value lies in its band. -/
theorem seriesShapeOk_map (days : ℕ) (today : ℤ) (val lo : ℕ → ℚ) (w : ℚ)
    (hv : ∀ i, lo i ≤ val i ∧ val i < lo i + w) :
    seriesShapeOk days today lo w
      ((List.range days).map fun (i : ℕ) => (today - ((days : ℤ) - 1) + (i : ℤ), val i)) := by
  refine ⟨by simp [seriesDates], fun i hi => ?_, fun i v hsome => ?_⟩
  · simp [seriesDates, List.getElem?_map, List.getElem?_range hi]
  · have hlt : i < days := by
      rcases List.getElem?_eq_some.mp hsome with ⟨hl, _⟩
      simpa [seriesValues] using hl
    simp [seriesValues, List.getElem?_map, List.getElem?_range hlt] at hsome
    subst hsome
    exact hv i

/-- C8: for any window of at least one day and any random draws in [0,1),
the fallback generator produces, for each of the four parameters, exactly
`window_days` consecutive dates ending today, with each day-`i` value in
its documented band: temperature in `[20 + i%10, 20 + i%10 + 3)`,
precipitation in `[2.5 + i%5, 2.5 + i%5 + 1)`, soil moisture in
`[0.3 + 0.1*(i%3), 0.3 + 0.1*(i%3) + 0.1)`, solar radiation in
`[5.5, 6.5)`. -/
theorem sample_data_shape (days : ℕ) (today : ℤ) (rT rP rS rR : ℕ → ℚ)
    (hdays : 1 ≤ days)
    (hT : ∀ i, 0 ≤ rT i ∧ rT i < 1) (hP : ∀ i, 0 ≤ rP i ∧ rP i < 1)
    (hS : ∀ i, 0 ≤ rS i ∧ rS i < 1) (hR : ∀ i, 0 ≤ rR i ∧ rR i < 1) :
    seriesShapeOk days today (fun i => 20 + ((i % 10 : ℕ) : ℚ)) 3
      (get_sample_data days today rT rP rS rR).T2M ∧
    seriesShapeOk days today (fun i => 5/2 + ((i % 5 : ℕ) : ℚ)) 1
      (get_sample_data days today rT rP rS rR).PRECTOTCORR ∧
    seriesShapeOk days today (fun i => 3/10 + ((i % 3 : ℕ) : ℚ) * (1/10)) (1/10)
      (get_sample_data days today rT rP rS rR).GWETROOT ∧
    seriesShapeOk days today (fun _ => 11/2) 1
      (get_sample_data days today rT rP rS rR).ALLSKY_SFC_SW_DWN := by
  refine ⟨seriesShapeOk_map days today _ _ _ (fun i => ⟨?_, ?_⟩),
    seriesShapeOk_map days today _ _ _ (fun i => ⟨?_, ?_⟩),
    seriesShapeOk_map days today _ _ _ (fun i => ⟨?_, ?_⟩),
    seriesShapeOk_map days today _ _ _ (fun i => ⟨?_, ?_⟩)⟩
  · linarith [(hT i).1]
  · linarith [(hT i).2]
  · linarith [(hP i).1]
  · linarith [(hP i).2]
  · linarith [(hS i).1]
  · linarith [(hS i).2]
  · linarith [(hR i).1]
  · linarith [(hR i).2]

/-- Witness for `sample_data_shape`: a 3-day window with all draws 1/2. -/
theorem sample_data_shape_witness :
    seriesShapeOk 3 0 (fun i => 20 + ((i % 10 : ℕ) : ℚ)) 3
      (get_sample_data 3 0 (fun _ => 1/2) (fun _ => 1/2) (fun _ => 1/2) (fun _ => 1/2)).T2M ∧
    seriesShapeOk 3 0 (fun i => 5/2 + ((i % 5 : ℕ) : ℚ)) 1
      (get_sample_data 3 0 (fun _ => 1/2) (fun _ => 1/2) (fun _ => 1/2)
        (fun _ => 1/2)).PRECTOTCORR ∧
    seriesShapeOk 3 0 (fun i => 3/10 + ((i % 3 : ℕ) : ℚ) * (1/10)) (1/10)
      (get_sample_data 3 0 (fun _ => 1/2) (fun _ => 1/2) (fun _ => 1/2)
        (fun _ => 1/2)).GWETROOT ∧
    seriesShapeOk 3 0 (fun _ => 11/2) 1
      (get_sample_data 3 0 (fun _ => 1/2) (fun _ => 1/2) (fun _ => 1/2)
        (fun _ => 1/2)).ALLSKY_SFC_SW_DWN :=
  sample_data_shape 3 0 (fun _ => 1/2) (fun _ => 1/2) (fun _ => 1/2) (fun _ => 1/2)
    (by norm_num) (fun _ => by norm_num) (fun _ => by norm_num)
    (fun _ => by norm_num) (fun _ => by norm_num)

/-- `listMin` bounds every member from below. -/
theorem listMin_le_of_mem : ∀ {l : List ℚ} {x : ℚ}, x ∈ l → listMin l ≤ x
  | [], _, h => by simp at h
  | [a], x, h => by
      simp at h
      subst h
      simp [listMin]
  | a :: b :: u, x, h => by
      rcases List.mem_cons.mp h with rfl | h2
      · simp [listMin]
      · exact le_trans (min_le_right _ _) (listMin_le_of_mem h2)

/-- `listMax` bounds every member from above. -/
theorem le_listMax_of_mem : ∀ {l : List ℚ} {x : ℚ}, x ∈ l → x ≤ listMax l
  | [], _, h => by simp at h
  | [a], x, h => by
      simp at h
      subst h
      simp [listMax]
  | a :: b :: u, x, h => by
      rcases List.mem_cons.mp h with rfl | h2
      · simp [listMax]
      · exact le_trans (le_listMax_of_mem h2) (le_max_right _ _)

/-- The arithmetic mean of a nonempty list lies between its minimum and
its maximum. -/
theorem mean_between_min_max (l : List ℚ) (hl : l.length ≠ 0) :
    listMin l ≤ l.sum / l.length ∧ l.sum / l.length ≤ listMax l := by
  have hpos : (0 : ℚ) < l.length := by
    have := Nat.pos_of_ne_zero hl
    exact_mod_cast this
  constructor
  · rw [le_div_iff₀ hpos]
    have h := List.card_nsmul_le_sum l (listMin l) (fun x hx => listMin_le_of_mem hx)
    rw [nsmul_eq_mul] at h
    linarith
  · rw [div_le_iff₀ hpos]
    have h := List.sum_le_card_nsmul l (listMax l) (fun x hx => le_listMax_of_mem hx)
    rw [nsmul_eq_mul] at h
    linarith

/-- `roundHalfEven` is within one half of its argument (lower side). -/
theorem roundHalfEven_ge (q : ℚ) : q - 1/2 ≤ (roundHalfEven q : ℚ) := by
  unfold roundHalfEven
  have h1 := Int.floor_le q
  have h2 := Int.lt_floor_add_one q
  split_ifs <;> push_cast <;> linarith

/-- `roundHalfEven` is within one half of its argument (upper side). -/
theorem roundHalfEven_le (q : ℚ) : (roundHalfEven q : ℚ) ≤ q + 1/2 := by
  unfold roundHalfEven
  have h1 := Int.floor_le q
  have h2 := Int.lt_floor_add_one q
  split_ifs <;> push_cast <;> linarith

/-- Rounding to `p` decimals moves a value by at most half an ulp. -/
theorem roundTo_bounds (p : ℕ) (q : ℚ) :
    q - 1 / (2 * 10 ^ p) ≤ roundTo p q ∧ roundTo p q ≤ q + 1 / (2 * 10 ^ p) := by
  have hp : (0 : ℚ) < 10 ^ p := by positivity
  unfold roundTo
  constructor
  · rw [le_div_iff₀ hp]
    have h := roundHalfEven_ge (q * 10 ^ p)
    have e : (q - 1 / (2 * 10 ^ p)) * 10 ^ p = q * 10 ^ p - 1/2 := by
      field_simp
      ring
    rw [e]
    exact h
  · rw [div_le_iff₀ hp]
    have h := roundHalfEven_le (q * 10 ^ p)
    have e : (q + 1 / (2 * 10 ^ p)) * 10 ^ p = q * 10 ^ p + 1/2 := by
      field_simp
      ring
    rw [e]
    exact h

/-- C9 counterexample: on a fetchable observation set whose temperature
series is constantly 20.04, the rounded average temperature is 20.0,
strictly below the minimum of the raw series — so the averages do not
always lie within the raw series' min/max. -/
theorem avg_below_series_min :
    analyze_conditions (some roundingData)
      = .ok (some ⟨20, 3, 2/5, [501/25, 501/25], [3, 3], [2/5, 2/5]⟩) ∧
    (⟨20, 3, 2/5, [501/25, 501/25], [3, 3], [2/5, 2/5]⟩ : Analysis).avg_temperature
      < listMin (seriesValues roundingData.T2M) := by
  constructor
  · norm_num [analyze_conditions, roundingData, seriesValues, roundTo, roundHalfEven]
  · norm_num [roundingData, seriesValues, listMin]

/-- C9 (amended): every average computed by `analyze_conditions` lies
within the min/max of the corresponding raw series widened by half an ulp
of its rounding precision: 0.05 for the 1-decimal temperature average and
0.005 for the 2-decimal precipitation and soil-moisture averages. -/
theorem averages_within_rounded_range (d : NasaData) (a : Analysis)
    (h : analyze_conditions (some d) = .ok (some a)) :
    listMin (seriesValues d.T2M) - 1/20 ≤ a.avg_temperature ∧
    a.avg_temperature ≤ listMax (seriesValues d.T2M) + 1/20 ∧
    listMin (seriesValues d.PRECTOTCORR) - 1/200 ≤ a.avg_precipitation ∧
    a.avg_precipitation ≤ listMax (seriesValues d.PRECTOTCORR) + 1/200 ∧
    listMin (seriesValues d.GWETROOT) - 1/200 ≤ a.avg_soil_moisture ∧
    a.avg_soil_moisture ≤ listMax (seriesValues d.GWETROOT) + 1/200 := by
  simp only [analyze_conditions] at h
  split_ifs at h with h1 h2 h3
  rw [Except.ok.injEq, Option.some.injEq] at h
  subst h
  have bt := mean_between_min_max (seriesValues d.T2M) h1
  have bp := mean_between_min_max (seriesValues d.PRECTOTCORR) h2
  have bs := mean_between_min_max (seriesValues d.GWETROOT) h3
  have rt := roundTo_bounds 1 ((seriesValues d.T2M).sum / (seriesValues d.T2M).length)
  have rp := roundTo_bounds 2
    ((seriesValues d.PRECTOTCORR).sum / (seriesValues d.PRECTOTCORR).length)
  have rs := roundTo_bounds 2
    ((seriesValues d.GWETROOT).sum / (seriesValues d.GWETROOT).length)
  norm_num at rt rp rs
  exact ⟨by linarith [bt.1, rt.1], by linarith [bt.2, rt.2],
    by linarith [bp.1, rp.1], by linarith [bp.2, rp.2],
    by linarith [bs.1, rs.1], by linarith [bs.2, rs.2]⟩

/-- Witness for `averages_within_rounded_range` at the worked-example
observation set. -/
theorem averages_within_rounded_range_witness :
    listMin (seriesValues exampleData35.T2M) - 1/20
        ≤ (⟨20, 3, 7/20, [20], [3], [7/20]⟩ : Analysis).avg_temperature ∧
    (⟨20, 3, 7/20, [20], [3], [7/20]⟩ : Analysis).avg_temperature
        ≤ listMax (seriesValues exampleData35.T2M) + 1/20 ∧
    listMin (seriesValues exampleData35.PRECTOTCORR) - 1/200
        ≤ (⟨20, 3, 7/20, [20], [3], [7/20]⟩ : Analysis).avg_precipitation ∧
    (⟨20, 3, 7/20, [20], [3], [7/20]⟩ : Analysis).avg_precipitation
        ≤ listMax (seriesValues exampleData35.PRECTOTCORR) + 1/200 ∧
    listMin (seriesValues exampleData35.GWETROOT) - 1/200
        ≤ (⟨20, 3, 7/20, [20], [3], [7/20]⟩ : Analysis).avg_soil_moisture ∧
    (⟨20, 3, 7/20, [20], [3], [7/20]⟩ : Analysis).avg_soil_moisture
        ≤ listMax (seriesValues exampleData35.GWETROOT) + 1/200 :=
  averages_within_rounded_range exampleData35 ⟨20, 3, 7/20, [20], [3], [7/20]⟩
    analyze_exampleData35

end Horizon
